import Mathlib

/-!
Shallow embedding of the movie-recommendation agent (`src/main.py`):
the mock metadata tool `fetch_movie_metadata`, the tool registry
`available_tools`, the structured step schema `MyOutputFormat`, the
session state (model transcript `messages` plus human-facing
`chat_history`), the per-iteration body of the `while True` agent loop,
and the Clear Recommendations reset.

Conventions of the embedding:
* Python strings are Lean `String`s; `str.lower` / `str.strip` are
  modelled for ASCII text (Lean's `Char.toLower` lower-cases exactly the
  ASCII range, which is what every keyword and category key here uses).
* Python's `a in b` substring test is `strContains b a`.
* `Optional[str]` is `Option String`; a Python f-string interpolation of
  an optional renders `none` as "None" (`pyFmt`).
* An unhandled Python exception is modelled as an explicit result
  (`StepResult.crash` for the loop body, `none` for a tool function):
  `fetch_movie_metadata(None)` raises `AttributeError` on `None.lower()`.
* `json.dumps` output is reproduced literally (default separators,
  `ensure_ascii=True` escaping, insertion-ordered keys).
-/

set_option maxRecDepth 100000

namespace MovieAgent

/-- ASCII lower-casing, the behaviour of Python's `str.lower` on ASCII text
(`Char.toLower` maps `A`..`Z` to `a`..`z` and fixes everything else). -/
def pyLower (s : String) : String :=
  ⟨s.data.map Char.toLower⟩

/-- The characters removed by Python's `str.strip()` (ASCII whitespace). -/
def pyWhitespace (c : Char) : Bool :=
  c = ' ' || c = '\t' || c = '\n' || c = '\r' || c = '\x0b' || c = '\x0c'

/-- Python's `str.strip()`: drop leading and trailing whitespace. -/
def pyStrip (s : String) : String :=
  ⟨((s.data.dropWhile pyWhitespace).reverse.dropWhile pyWhitespace).reverse⟩

/-- Python's substring test `needle in hay`: `needle` occurs contiguously
somewhere in `hay` (the empty needle always matches). -/
def strContains (hay needle : String) : Bool :=
  (List.range (hay.data.length + 1)).any
    (fun i => needle.data.isPrefixOf (hay.data.drop i))

/-- Python f-string rendering of an `Optional[str]`: `None` prints as
the text "None". -/
def pyFmt : Option String → String
  | none => "None"
  | some s => s

/-- One entry of the mock movie table.  `imdb_rating` stores the rating in
tenths (the source's `8.3` is `83`) so the data stays exact. -/
structure Movie where
  title : String
  genre : String
  imdb_rating : Nat
  runtime_mins : Nat
deriving DecidableEq, Repr

/-- Render a tenths-valued rating the way `json.dumps` renders the
corresponding Python float (`83` ↦ "8.3", `80` ↦ "8.0"). -/
def showTenths (n : Nat) : String :=
  toString (n / 10) ++ "." ++ toString (n % 10)

/-- The `"sci-fi"` category of `mock_movies`. -/
def sciFiMovies : List Movie :=
  [⟨"Space Odyssey 2001", "Sci-Fi/Drama", 83, 149⟩,
   ⟨"Robot Detective", "Sci-Fi/Thriller", 75, 115⟩,
   ⟨"The Infinite Loop", "Sci-Fi/Mystery", 91, 180⟩]

/-- The `"action"` category of `mock_movies`. -/
def actionMovies : List Movie :=
  [⟨"The Fast Getaway", "Action/Thriller", 78, 95⟩,
   ⟨"Mountain Commandos", "Action/War", 80, 122⟩]

/-- The `"comedy"` category of `mock_movies`. -/
def comedyMovies : List Movie :=
  [⟨"The Office Party", "Comedy/Slice of Life", 69, 88⟩,
   ⟨"Wacky Neighbors", "Comedy/Slapstick", 72, 105⟩]

/-- The `mock_movies` dictionary, in Python insertion order. -/
def mock_movies : List (String × List Movie) :=
  [("sci-fi", sciFiMovies), ("action", actionMovies), ("comedy", comedyMovies)]

/-- Python `dict.get`: the value at the first (unique) matching key. -/
def dictGet (d : List (String × List Movie)) (k : String) : Option (List Movie) :=
  (d.find? (fun p => p.1 == k)).map Prod.snd

/-- Python truthiness of the `movies` variable: `None` and `[]` are falsy. -/
def pyTruthy : Option (List Movie) → Bool
  | none => false
  | some l => !l.isEmpty

/-- The key/value pairs of one movie entry as serialized by `json.dumps`
(insertion order of the source dict literals). -/
def movieFields (m : Movie) : List (String × String) :=
  [("title", "\"" ++ m.title ++ "\""),
   ("genre", "\"" ++ m.genre ++ "\""),
   ("imdb_rating", showTenths m.imdb_rating),
   ("runtime_mins", toString m.runtime_mins)]

/-- `json.dumps` of one movie dict (default separators; every string in the
table is plain ASCII needing no escapes). -/
def movieJson (m : Movie) : String :=
  "\x7b" ++ String.intercalate ", "
      ((movieFields m).map (fun p => "\"" ++ p.1 ++ "\": " ++ p.2)) ++ "\x7d"

/-- `json.dumps` of a list of movie dicts. -/
def moviesJson (ms : List Movie) : String :=
  "[" ++ String.intercalate ", " (ms.map movieJson) ++ "]"

/-- The not-found message of `fetch_movie_metadata` (source line 66). -/
def notFound (preference_keyword : String) : String :=
  "⚠️ Could not find movies matching: " ++ preference_keyword ++
    ". Try \x27sci-fi\x27, \x27action\x27, or \x27comedy\x27."

/-- Source line 53: the exact-key lookup `mock_movies.get(keyword)` on the
normalized keyword. -/
def exactMatch (preference_keyword : String) : Option (List Movie) :=
  dictGet mock_movies (pyStrip (pyLower preference_keyword))

/-- Source lines 57-60: the fallback scan.  Note the asymmetry of the
source condition `key in keyword or preference_keyword in key`: the first
direction uses the normalized keyword, the second the raw argument. -/
def fallbackMatch (preference_keyword : String) : Option (String × List Movie) :=
  mock_movies.find? (fun p =>
    strContains (pyStrip (pyLower preference_keyword)) p.1 ||
    strContains p.1 preference_keyword)

/-- Source lines 56-60: the value of `movies` after the broadening loop;
when the loop matches nothing, `movies` keeps its falsy value from the
exact lookup. -/
def broadened (preference_keyword : String) : Option (List Movie) :=
  match fallbackMatch preference_keyword with
  | some p => some p.2
  | none => exactMatch preference_keyword

/-- The mock metadata tool, `fetch_movie_metadata` (source lines 21-66),
on an actual string argument. -/
def fetch_movie_metadata (preference_keyword : String) : String :=
  let movies : Option (List Movie) :=
    if pyTruthy (exactMatch preference_keyword) then exactMatch preference_keyword
    else broadened preference_keyword
  match movies with
  | some ms => if ms.isEmpty then notFound preference_keyword else moviesJson ms
  | none => notFound preference_keyword

example : fetch_movie_metadata "sci-fi" = moviesJson sciFiMovies := by decide
example : fetch_movie_metadata " ACTION " = moviesJson actionMovies := by decide
example : fetch_movie_metadata "sci-fi movies" = moviesJson sciFiMovies := by decide
example : fetch_movie_metadata "horror" = notFound "horror" := by decide
example : fetch_movie_metadata "ACT" = notFound "ACT" := by decide
example : fetch_movie_metadata "act" = moviesJson actionMovies := by decide

/-- A tool taking the raw `Optional[str]` argument of a TOOL step.
`fetch_movie_metadata(None)` raises `AttributeError` (`None.lower()`),
modelled as `none`; a string argument succeeds with the tool's text. -/
def fetchToolFn : Option String → Option String
  | none => none
  | some s => some (fetch_movie_metadata s)

/-- The `available_tools` registry (source lines 68-71); `get_movie_data`
aliases the same function. -/
def available_tools : List (String × (Option String → Option String)) :=
  [("fetch_movie_metadata", fetchToolFn), ("get_movie_data", fetchToolFn)]

/-- Python's `tool_name in available_tools` / `available_tools[tool_name]`
pair: `none` (a null name) is never a key, so it looks up nothing. -/
def toolLookup : Option String → Option (Option String → Option String)
  | none => none
  | some n => (available_tools.find? (fun p => p.1 == n)).map Prod.snd

/-- Source lines 177-180: either call the registered tool (whose raising
is `none`) or synthesize the `Error: Tool ... not found.` string. -/
def toolDispatch (tool_name tool_input : Option String) : Option String :=
  match toolLookup tool_name with
  | some f => f tool_input
  | none => some ("Error: Tool " ++ pyFmt tool_name ++ " not found.")

/-- Hex digit used by `json.dumps` `\uXXXX` escapes (lowercase). -/
def hexDigit (n : Nat) : Char :=
  if n < 10 then Char.ofNat (48 + n) else Char.ofNat (87 + n)

/-- Four lowercase hex digits. -/
def hex4 (n : Nat) : String :=
  ⟨[hexDigit (n / 4096 % 16), hexDigit (n / 256 % 16),
    hexDigit (n / 16 % 16), hexDigit (n % 16)]⟩

/-- `json.dumps` escaping of one character with `ensure_ascii=True`:
short escapes for the usual control characters, `\uXXXX` for other
controls and all non-ASCII (surrogate pairs beyond the BMP). -/
def jsonEscapeChar (c : Char) : String :=
  if c = '"' then "\\\""
  else if c = '\\' then "\\\\"
  else if c = '\n' then "\\n"
  else if c = '\t' then "\\t"
  else if c = '\r' then "\\r"
  else if c.toNat = 8 then "\\b"
  else if c.toNat = 12 then "\\f"
  else if c.toNat < 32 then "\\u" ++ hex4 c.toNat
  else if c.toNat < 127 then ⟨[c]⟩
  else if c.toNat < 65536 then "\\u" ++ hex4 c.toNat
  else
    "\\u" ++ hex4 (55296 + (c.toNat - 65536) / 1024) ++
    "\\u" ++ hex4 (56320 + (c.toNat - 65536) % 1024)

/-- `json.dumps` escaping of a whole string. -/
def jsonEscape (s : String) : String :=
  String.join (s.data.map jsonEscapeChar)

/-- A JSON string literal. -/
def jsonStr (s : String) : String :=
  "\"" ++ jsonEscape s ++ "\""

/-- A JSON value for an `Optional[str]`: `None` serializes as `null`. -/
def jsonOpt : Option String → String
  | none => "null"
  | some s => jsonStr s

/-- Source lines 182-190: the serialized developer observation record
`json.dumps(\x7b"step": "OBSERVE", "tool": ..., "input": ..., "output": ...\x7d)`. -/
def obsJson (tool_name tool_input : Option String) (output : String) : String :=
  "\x7b\"step\": \"OBSERVE\", \"tool\": " ++ jsonOpt tool_name ++
    ", \"input\": " ++ jsonOpt tool_input ++
    ", \"output\": " ++ jsonStr output ++ "\x7d"

/-- One entry of the transcript sent to the model (`st.session_state.messages`). -/
structure Message where
  role : String
  content : String
deriving DecidableEq, Repr

/-- The session state: the model transcript and the human-facing display
log (`st.session_state.messages` / `st.session_state.chat_history`). -/
structure AgentState where
  messages : List Message
  chat_history : List (String × String)
deriving DecidableEq, Repr

/-- The structured step schema (source lines 104-109): a step kind plus
optional kind-dependent fields, none of them enforced. -/
structure MyOutputFormat where
  step : String
  content : Option String := none
  tool : Option String := none
  input : Option String := none
deriving DecidableEq, Repr

/-- Outcome of one iteration of the `while True` loop: re-invoke the
model (`next`), `break` out of the turn (`done`), or abort the turn with
an unhandled Python exception (`crash`).  Each carries the session state
at that point. -/
inductive StepResult where
  | next (st : AgentState)
  | done (st : AgentState)
  | crash (st : AgentState)
deriving DecidableEq, Repr

/-- The control-flow kind of a `StepResult`, without its state. -/
inductive RKind where
  | next
  | done
  | crash
deriving DecidableEq, Repr

/-- Project the control-flow kind out of a `StepResult`. -/
def StepResult.kind : StepResult → RKind
  | .next _ => .next
  | .done _ => .done
  | .crash _ => .crash

/-- Project the session state out of a `StepResult`. -/
def StepResult.state : StepResult → AgentState
  | .next st => st
  | .done st => st
  | .crash st => st

/-- The body of the `while True` agent loop (source lines 147-195) for one
model response: append the raw assistant message, then branch on the
parsed step kind exactly as the if/elif chain does.  A step kind matching
no branch falls through and the loop continues. -/
def handleStep (st : AgentState) (raw : String) (parsed : MyOutputFormat) : StepResult :=
  let st1 : AgentState := { st with messages := st.messages ++ [⟨"assistant", raw⟩] }
  if parsed.step = "START" then
    .next { st1 with chat_history :=
      st1.chat_history ++ [("assistant", "🔥 MRE Initialized: " ++ pyFmt parsed.content)] }
  else if parsed.step = "PLAN" then
    .next { st1 with chat_history :=
      st1.chat_history ++ [("assistant", "🧠 Planning: " ++ pyFmt parsed.content)] }
  else if parsed.step = "TOOL" then
    let st2 : AgentState := { st1 with chat_history :=
      st1.chat_history ++ [("assistant", "🛠️ Fetching data using keyword: " ++ pyFmt parsed.input)] }
    match toolDispatch parsed.tool parsed.input with
    | some tool_response =>
        .next { st2 with messages :=
          st2.messages ++ [⟨"developer", obsJson parsed.tool parsed.input tool_response⟩] }
    | none => .crash st2
  else if parsed.step = "OUTPUT" then
    .done { st1 with chat_history :=
      st1.chat_history ++ [("assistant", "🤖 **MRE Recommendation:** " ++ pyFmt parsed.content)] }
  else
    .next st1

/-- The `SYSTEM_PROMPT` string (source lines 74-101). -/
def SYSTEM_PROMPT : String :=
  "\nYou are the **Movie Recommendation Engine (MRE)**. Your core function is to provide highly curated and justified movie suggestions based on user preferences (genre, runtime, rating, etc.). You **must** utilize the Chain-of-Thought (CoT) reasoning pattern for every response, regardless of the complexity of the user\x27s query.\n\n### 1. Chain-of-Thought (CoT) Requirement\n**STRICT RULE:** Your output must begin with an invisible **THOUGHT** block where you detail your step-by-step analysis. Do not show this THOUGHT block to the user.\n\n**The CoT Process MUST include:**\n1.  **Data Ingestion:** Identify the user\x27s primary preferences (e.g., \x27sci-fi\x27, \x27short runtime\x27, \x27high rating\x27).\n2.  **Tool Execution Planning:** Plan to use the \x60fetch_movie_metadata\x60 tool with the primary preference keyword.\n3.  **Source Cross-Verification:** Mentally synthesize the list of movies received from the tool. Filter and categorize them by the user\x27s explicit constraints (e.g., must be over an 8.0 rating, less than 120 minutes runtime).\n4.  **Contextual Interpretation:** Select the absolute best recommendation, highlighting *why* it is the best fit based on the user\x27s input and the analyzed metrics (rating, runtime, genre fit).\n5.  **Final Synthesis:** Construct the final, clear, and direct Movie Recommendation statement based *only* on the conclusion of the analysis.\n\n### 2. Output Format\nYour final, user-facing output **must** be clear and structured, beginning with the **Recommendation Summary** and concluding with the **Justification** based on your CoT process.\n\n**Required User-Facing Format:**\n1.  **Summary Greeting:** A concise, enthusiastic greeting relevant to the user\x27s taste.\n2.  **Top Recommendation:** State the **Top Recommendation**, including Title and Primary Genre.\n3.  **Key Metrics:** List the key metrics (e.g., IMDb Rating, Runtime).\n4.  **---** (Horizontal Rule)\n5.  **Recommendation Justification:** A brief, compelling explanation (1-2 sentences) of *why* this movie was selected based on the analyzed data and user preferences.\n\n### 3. Constraints\n* **Focus on Quality:** Prioritize high-rated and well-fitting options.\n* **Avoid Spoilers:** Only provide metadata and fit assessment, not plot details.\n* **Use Standard Film Terminology:** Use clear terms like \x27runtime\x27, \x27rating\x27, and \x27genre\x27.\n"

/-- The Clear Recommendations handler (source lines 128-131): whatever the
prior session state, reseed the transcript with the system message alone
and empty the display log. -/
def resetSession (_prior : AgentState) : AgentState :=
  { messages := [⟨"system", SYSTEM_PROMPT⟩], chat_history := [] }

/-- Appending a user query at the start of a turn (source lines 144-145). -/
def startTurn (st : AgentState) (user_query : String) : AgentState :=
  { messages := st.messages ++ [⟨"user", user_query⟩],
    chat_history := st.chat_history ++ [("user", user_query)] }

example :
    (handleStep ⟨[], []⟩ "r" ⟨"TOOL", none, some "fetch_movie_metadata", none⟩).kind
      = RKind.crash := by decide

example :
    (handleStep ⟨[], []⟩ "r" ⟨"TOOL", none, none, some "sci-fi"⟩).kind
      = RKind.next := by decide

example :
    (handleStep ⟨[], []⟩ "r" ⟨"TOOL", none, some "zzz", some "x"⟩).state.messages
      = [⟨"assistant", "r"⟩,
         ⟨"developer", obsJson (some "zzz") (some "x") "Error: Tool zzz not found."⟩] := by
  decide

/-- A TOOL step whose `tool` names a registered tool but whose `input` is
null; the shape that makes `fetch_movie_metadata(None)` raise. -/
def malformedToolStep : MyOutputFormat :=
  ⟨"TOOL", none, some "fetch_movie_metadata", none⟩

/-- Any needle placed between two other strings is found by `strContains`. -/
theorem strContains_middle (a b c : String) : strContains (a ++ b ++ c) b = true := by
  unfold strContains
  rw [List.any_eq_true]
  refine ⟨a.data.length, ?_, ?_⟩
  · rw [List.mem_range, String.data_append, String.data_append, List.append_assoc,
      List.length_append]
    omega
  · rw [String.data_append, String.data_append, List.append_assoc, List.drop_left,
      List.isPrefixOf_iff_prefix]
    exact List.prefix_append _ _

/-- Every function the registry can return is `fetchToolFn`: both names
alias the same callable. -/
theorem toolLookup_fn {t : Option String} {f : Option String → Option String}
    (h : toolLookup t = some f) : f = fetchToolFn := by
  cases t with
  | none => simp [toolLookup] at h
  | some n =>
    have h' : (available_tools.find? (fun p => p.1 == n)).map Prod.snd = some f := h
    rcases hfind : available_tools.find? (fun p => p.1 == n) with _ | p
    · rw [hfind] at h'
      simp at h'
    · rw [hfind] at h'
      have hp : p ∈ available_tools := List.mem_of_find?_eq_some hfind
      have hpf : p.2 = f := by simpa using h'
      rw [← hpf]
      simp only [available_tools, List.mem_cons, List.mem_singleton,
        List.not_mem_nil, or_false] at hp
      rcases hp with hp | hp <;> rw [hp]

/-- The dispatch of source lines 177-180 raises exactly when the step names
a registered tool and carries a null input. -/
theorem toolDispatch_eq_none_iff (t i : Option String) :
    toolDispatch t i = none ↔ ((toolLookup t).isSome = true ∧ i = none) := by
  unfold toolDispatch
  rcases hl : toolLookup t with _ | f
  · simp
  · have hf := toolLookup_fn hl
    subst hf
    cases i <;> simp [fetchToolFn]

/-- Every category of the mock table is nonempty. -/
theorem mock_values_ne_nil : ∀ p ∈ mock_movies, p.2 ≠ [] := by decide

/-- An exact-key hit returns one of the (nonempty) category lists. -/
theorem exactMatch_mem {k : String} {ms : List Movie}
    (h : exactMatch k = some ms) : ∃ p ∈ mock_movies, p.2 = ms := by
  have h' : (mock_movies.find? (fun p => p.1 == pyStrip (pyLower k))).map Prod.snd
      = some ms := h
  rcases hfind : mock_movies.find? (fun p => p.1 == pyStrip (pyLower k)) with _ | p
  · rw [hfind] at h'
    simp at h'
  · rw [hfind] at h'
    exact ⟨p, List.mem_of_find?_eq_some hfind, by simpa using h'⟩

/-- A fallback hit is one of the table's entries. -/
theorem fallbackMatch_mem {k : String} {p : String × List Movie}
    (h : fallbackMatch k = some p) : p ∈ mock_movies := by
  unfold fallbackMatch at h
  exact List.mem_of_find?_eq_some h

/-- `fetch_movie_metadata` on an exact-key hit returns that category's JSON. -/
theorem fetch_exact {k : String} {ms : List Movie}
    (h : exactMatch k = some ms) : fetch_movie_metadata k = moviesJson ms := by
  obtain ⟨p, hmem, hpm⟩ := exactMatch_mem h
  have hne : ms ≠ [] := hpm ▸ mock_values_ne_nil p hmem
  have hemp : ms.isEmpty = false := by
    rcases hi : ms.isEmpty with _ | _
    · rfl
    · exact absurd (List.isEmpty_iff.mp hi) hne
  unfold fetch_movie_metadata
  rw [h]
  simp [pyTruthy, hemp]

/-- `fetch_movie_metadata` on an exact miss but fallback hit returns the
first substring-matched category's JSON. -/
theorem fetch_fallback {k : String} {p : String × List Movie}
    (hex : exactMatch k = none) (hfb : fallbackMatch k = some p) :
    fetch_movie_metadata k = moviesJson p.2 := by
  have hne : p.2 ≠ [] := mock_values_ne_nil p (fallbackMatch_mem hfb)
  have hemp : p.2.isEmpty = false := by
    rcases hi : p.2.isEmpty with _ | _
    · rfl
    · exact absurd (List.isEmpty_iff.mp hi) hne
  unfold fetch_movie_metadata broadened
  rw [hex, hfb]
  simp [pyTruthy, hemp]

/-- `fetch_movie_metadata` on a total miss returns the not-found string. -/
theorem fetch_nomatch {k : String}
    (hex : exactMatch k = none) (hfb : fallbackMatch k = none) :
    fetch_movie_metadata k = notFound k := by
  unfold fetch_movie_metadata broadened
  rw [hex, hfb]
  simp [pyTruthy]

/-- The not-found string begins with the warning sign, never `[`. -/
theorem notFound_head (k : String) : (notFound k).data.head? = some '⚠' := by
  unfold notFound
  rw [String.data_append, String.data_append, List.head?_append, List.head?_append]
  rfl

/-- Every serialized movie array begins with `[`. -/
theorem moviesJson_head (ms : List Movie) : (moviesJson ms).data.head? = some '[' := by
  unfold moviesJson
  rw [String.data_append, List.head?_append]
  rfl

/-- The field names of every serialized movie entry, in order. -/
theorem movieFields_names (m : Movie) :
    (movieFields m).map Prod.fst = ["title", "genre", "imdb_rating", "runtime_mins"] :=
  rfl

/-- Every movie in the mock table has a rating of at most 10.0 (100 tenths)
and a positive runtime. -/
theorem mock_movies_bounds :
    ∀ q ∈ mock_movies, ∀ m ∈ q.2, m.imdb_rating ≤ 100 ∧ 0 < m.runtime_mins := by
  decide

/-- Splitting a trailing literal so a substring witness becomes visible. -/
theorem append_not_found_split (X : String) :
    ((X ++ " ") ++ "not found") ++ "." = X ++ " not found." := by
  rw [String.append_assoc, String.append_assoc]
  exact congrArg (X ++ ·) (by decide)

/-- Fetch as claim C2 words it: after normalizing, the substring fallback is
symmetric in the NORMALIZED keyword (first category whose key is contained
in the normalized keyword or contains the normalized keyword).  The source
instead tests the RAW argument in the second direction; this definition
exists only to be compared against `fetch_movie_metadata`. -/
def claimFetchC2 (preference_keyword : String) : String :=
  let nk := pyStrip (pyLower preference_keyword)
  match dictGet mock_movies nk with
  | some ms => moviesJson ms
  | none =>
    match mock_movies.find? (fun p => strContains nk p.1 || strContains p.1 nk) with
    | some p => moviesJson p.2
    | none => notFound preference_keyword

/-- C2 counterexample: at input "ACT" the claim's symmetric-normalized
fallback would match category "action" ("act" occurs in "action"), but the
code tests the raw "ACT" against the key, matches nothing, and returns the
not-found string. -/
theorem fetch_fallback_direction_cx :
    claimFetchC2 "ACT" = moviesJson actionMovies ∧
    fetch_movie_metadata "ACT" = notFound "ACT" ∧
    fetch_movie_metadata "ACT" ≠ claimFetchC2 "ACT" :=
  ⟨by decide, by decide, by decide⟩

/-- C2 (amended): `fetch_movie_metadata` normalizes the keyword
(lower-case, trimmed), returns the exact category hit first; on a miss it
takes the first category whose key is a substring of the normalized keyword
OR whose key contains the ORIGINAL un-normalized argument as a substring;
only when both fail does it return the not-found string. -/
theorem fetch_match_order (k : String) :
    (∀ ms, dictGet mock_movies (pyStrip (pyLower k)) = some ms →
        fetch_movie_metadata k = moviesJson ms) ∧
    (dictGet mock_movies (pyStrip (pyLower k)) = none →
      (∀ p, mock_movies.find? (fun q => strContains (pyStrip (pyLower k)) q.1 ||
              strContains q.1 k) = some p →
          fetch_movie_metadata k = moviesJson p.2) ∧
      (mock_movies.find? (fun q => strContains (pyStrip (pyLower k)) q.1 ||
            strContains q.1 k) = none →
        fetch_movie_metadata k = notFound k)) :=
  ⟨fun _ h => fetch_exact h,
   fun hex => ⟨fun _ hfb => fetch_fallback hex hfb, fun hfb => fetch_nomatch hex hfb⟩⟩

/-- C2 witness: "Sci-Fi Movies" misses the exact lookup but the normalized
"sci-fi movies" contains the key "sci-fi", so the sci-fi list is returned. -/
theorem fetch_match_order_w :
    fetch_movie_metadata "Sci-Fi Movies" = moviesJson sciFiMovies :=
  ((fetch_match_order "Sci-Fi Movies").2 (by decide)).1 ("sci-fi", sciFiMovies) (by decide)

/-- C6 counterexample: the hit for "sci-fi" is a JSON array, but its
entries carry the field names `imdb_rating` and `runtime_mins`; no entry
has a field named `rating` or `runtime_minutes` as the claim states (the
serialized output contains neither key). -/
theorem fetch_json_fields_cx :
    fetch_movie_metadata "sci-fi" = moviesJson sciFiMovies ∧
    sciFiMovies.map (fun m => (movieFields m).map Prod.fst)
      = [["title", "genre", "imdb_rating", "runtime_mins"],
         ["title", "genre", "imdb_rating", "runtime_mins"],
         ["title", "genre", "imdb_rating", "runtime_mins"]] ∧
    strContains (fetch_movie_metadata "sci-fi") "\"rating\"" = false ∧
    strContains (fetch_movie_metadata "sci-fi") "runtime_minutes" = false :=
  ⟨by decide, by decide, by decide, by decide⟩

/-- C6 (amended): for every keyword that matches a category,
`fetch_movie_metadata` returns the JSON serialization (starting with `[`)
of a nonempty category list whose entries each have fields `title`,
`genre`, `imdb_rating` (a number in 0.0-10.0, stored in tenths) and
`runtime_mins` (a positive integer); on a total miss it returns the
not-found string, which starts with `⚠` and hence is not a JSON array. -/
theorem fetch_result_shape (k : String) :
    (∃ ms, ms ∈ mock_movies.map Prod.snd ∧ ms ≠ [] ∧
        fetch_movie_metadata k = moviesJson ms ∧
        (fetch_movie_metadata k).data.head? = some '[' ∧
        ∀ m ∈ ms, (movieFields m).map Prod.fst
            = ["title", "genre", "imdb_rating", "runtime_mins"] ∧
          m.imdb_rating ≤ 100 ∧ 0 < m.runtime_mins) ∨
    (fetch_movie_metadata k = notFound k ∧
      (fetch_movie_metadata k).data.head? = some '⚠') := by
  rcases hex : exactMatch k with _ | ms
  · rcases hfb : fallbackMatch k with _ | p
    · right
      refine ⟨fetch_nomatch hex hfb, ?_⟩
      rw [fetch_nomatch hex hfb]
      exact notFound_head k
    · left
      have hf := fetch_fallback hex hfb
      have hmem := fallbackMatch_mem hfb
      refine ⟨p.2, List.mem_map_of_mem _ hmem, mock_values_ne_nil p hmem, hf, ?_, ?_⟩
      · rw [hf]
        exact moviesJson_head p.2
      · intro m hm
        exact ⟨movieFields_names m, mock_movies_bounds p hmem m hm⟩
  · left
    have hf := fetch_exact hex
    obtain ⟨p, hmem, hpm⟩ := exactMatch_mem hex
    refine ⟨ms, ?_, hpm ▸ mock_values_ne_nil p hmem, hf, ?_, ?_⟩
    · exact hpm ▸ List.mem_map_of_mem _ hmem
    · rw [hf]
      exact moviesJson_head ms
    · intro m hm
      exact ⟨movieFields_names m, mock_movies_bounds p hmem m (hpm ▸ hm)⟩

/-- C8: `fetch_movie_metadata` is deterministic.  The source rebuilds its
static table locally and touches no mutable state, so the embedding is a
pure function and identical arguments give byte-identical results. -/
theorem fetch_deterministic (k1 k2 : String) (h : k1 = k2) :
    fetch_movie_metadata k1 = fetch_movie_metadata k2 := by
  rw [h]

/-- C8 witness at the keyword "sci-fi". -/
theorem fetch_deterministic_w :
    fetch_movie_metadata "sci-fi" = fetch_movie_metadata "sci-fi" :=
  fetch_deterministic "sci-fi" "sci-fi" rfl

/-- C1 counterexample: a TOOL step naming a registered tool with a null
input does NOT re-invoke the model although its step kind is not OUTPUT:
the loop body aborts the turn (the tool call raises), refuting "for every
other step kind the loop always re-invokes the model". -/
theorem loop_reinvoke_cx :
    malformedToolStep.step ≠ "OUTPUT" ∧
    (handleStep ⟨[], []⟩ "r" malformedToolStep).kind ≠ RKind.next ∧
    (handleStep ⟨[], []⟩ "r" malformedToolStep).kind = RKind.crash :=
  ⟨by decide, by decide, by decide⟩

/-- C1 (amended): the loop breaks out of a user turn (normal termination)
exactly on an OUTPUT step; every other step re-invokes the model, except
that a TOOL step naming a registered tool with a null input aborts the
turn with an unhandled exception instead. -/
theorem loop_exit_characterization (st : AgentState) (raw : String) (p : MyOutputFormat) :
    ((handleStep st raw p).kind = RKind.done ↔ p.step = "OUTPUT") ∧
    ((handleStep st raw p).kind = RKind.crash ↔
      p.step = "TOOL" ∧ (toolLookup p.tool).isSome = true ∧ p.input = none) := by
  simp only [handleStep]
  split_ifs with h1 h2 h3 h4
  · simp [StepResult.kind, h1]
  · simp [StepResult.kind, h2]
  · rcases hd : toolDispatch p.tool p.input with _ | r
    · simp only [hd, StepResult.kind]
      refine ⟨by simp [h3], ?_, ?_⟩
      · intro _
        exact ⟨h3, (toolDispatch_eq_none_iff _ _).mp hd⟩
      · intro _
        trivial
    · simp only [hd, StepResult.kind]
      refine ⟨by simp [h3], ?_, ?_⟩
      · intro hk
        simp at hk
      · rintro ⟨-, hreg, hin⟩
        have hnone : toolDispatch p.tool p.input = none :=
          (toolDispatch_eq_none_iff _ _).mpr ⟨hreg, hin⟩
        rw [hd] at hnone
        simp at hnone
  · simp [StepResult.kind, h4]
  · simp [StepResult.kind, h3, h4]

/-- C1 witness: an OUTPUT step terminates the turn. -/
theorem loop_exit_characterization_w :
    (handleStep ⟨[], []⟩ "r" ⟨"OUTPUT", some "final", none, none⟩).kind = RKind.done :=
  (loop_exit_characterization ⟨[], []⟩ "r" ⟨"OUTPUT", some "final", none, none⟩).1.mpr rfl

/-- C3: evaluation at the malformed TOOL shapes.  A null tool name resolves
to the ToolNotFound path (the error observation is appended and the loop
re-invokes the model), matching the claim; but a null input with a
registered tool name crashes the turn (`fetch_movie_metadata(None)` raises
`AttributeError` on `None.lower()`), contradicting the claim's "handled
downstream without an unhandled fault". -/
theorem malformed_tool_step_eval :
    ((handleStep ⟨[], []⟩ "r" ⟨"TOOL", none, none, some "sci-fi"⟩).kind = RKind.next ∧
      (handleStep ⟨[], []⟩ "r" ⟨"TOOL", none, none, some "sci-fi"⟩).state.messages
        = [⟨"assistant", "r"⟩,
           ⟨"developer", obsJson none (some "sci-fi") "Error: Tool None not found."⟩]) ∧
    (handleStep ⟨[], []⟩ "r" malformedToolStep).kind = RKind.crash :=
  ⟨⟨by decide, by decide⟩, by decide⟩

/-- C4 counterexample: the claim says every TOOL-step iteration appends
exactly two transcript entries, but the aborting TOOL step (registered
tool, null input) appends only the assistant message before the exception. -/
theorem transcript_growth_cx :
    malformedToolStep.step = "TOOL" ∧
    (handleStep ⟨[], []⟩ "r" malformedToolStep).state.messages.length = 1 :=
  ⟨by decide, by decide⟩

/-- C4 (amended): each iteration grows the transcript by exactly one entry
(the assistant message) for non-TOOL steps, and by exactly two (assistant
plus developer observation) for TOOL steps whose dispatch completes; the
aborting TOOL step (registered tool, null input) grows it by one before
the unhandled exception ends the turn. -/
theorem transcript_growth (st : AgentState) (raw : String) (p : MyOutputFormat) :
    (handleStep st raw p).state.messages.length =
      st.messages.length +
        (if p.step = "TOOL" ∧ ¬((toolLookup p.tool).isSome = true ∧ p.input = none)
         then 2 else 1) := by
  by_cases h1 : p.step = "START"
  · simp [handleStep, StepResult.state, h1]
  by_cases h2 : p.step = "PLAN"
  · simp [handleStep, StepResult.state, h1, h2]
  by_cases h3 : p.step = "TOOL"
  · rcases hd : toolDispatch p.tool p.input with _ | r
    · obtain ⟨hreg, hinp⟩ := (toolDispatch_eq_none_iff _ _).mp hd
      rw [hinp] at hd
      simp [handleStep, StepResult.state, h1, h2, h3, hd, hreg, hinp]
    · have hcond : ¬((toolLookup p.tool).isSome = true ∧ p.input = none) := by
        intro hc
        have hnone := (toolDispatch_eq_none_iff _ _).mpr hc
        rw [hd] at hnone
        simp at hnone
      simp [handleStep, StepResult.state, h1, h2, h3, hd, hcond]
  by_cases h4 : p.step = "OUTPUT"
  · simp [handleStep, StepResult.state, h1, h2, h3, h4]
  · simp [handleStep, StepResult.state, h1, h2, h3, h4]

/-- C5: a TOOL step naming an unregistered (or null) tool never raises: the
loop continues, and the appended observation's output is the error string,
which contains both the "not found" marker and the missing tool's name. -/
theorem unregistered_tool_dispatch (st : AgentState) (raw : String) (p : MyOutputFormat)
    (h1 : p.step = "TOOL") (h2 : toolLookup p.tool = none) :
    (handleStep st raw p).kind = RKind.next ∧
    (handleStep st raw p).state.messages =
      st.messages ++
        [⟨"assistant", raw⟩,
         ⟨"developer", obsJson p.tool p.input
            ("Error: Tool " ++ pyFmt p.tool ++ " not found.")⟩] ∧
    strContains ("Error: Tool " ++ pyFmt p.tool ++ " not found.") "not found" = true ∧
    strContains ("Error: Tool " ++ pyFmt p.tool ++ " not found.") (pyFmt p.tool) = true := by
  have hd : toolDispatch p.tool p.input
      = some ("Error: Tool " ++ pyFmt p.tool ++ " not found.") := by
    unfold toolDispatch
    rw [h2]
  have hnf : strContains ("Error: Tool " ++ pyFmt p.tool ++ " not found.") "not found"
      = true := by
    rw [← append_not_found_split ("Error: Tool " ++ pyFmt p.tool)]
    exact strContains_middle _ _ _
  have hid : strContains ("Error: Tool " ++ pyFmt p.tool ++ " not found.") (pyFmt p.tool)
      = true := strContains_middle "Error: Tool " (pyFmt p.tool) " not found."
  refine ⟨?_, ?_, hnf, hid⟩ <;>
    simp [handleStep, StepResult.kind, StepResult.state, h1, hd]

/-- C5 witness at the unknown tool name "magic_tool". -/
theorem unregistered_tool_dispatch_w :
    toolLookup (some "magic_tool") = none ∧
    (handleStep ⟨[], []⟩ "r" ⟨"TOOL", none, some "magic_tool", some "x"⟩).kind
      = RKind.next ∧
    strContains ("Error: Tool " ++ pyFmt (some "magic_tool") ++ " not found.")
      "not found" = true := by
  have h := unregistered_tool_dispatch ⟨[], []⟩ "r"
    ⟨"TOOL", none, some "magic_tool", some "x"⟩ rfl rfl
  exact ⟨rfl, h.1, h.2.2.1⟩

/-- C7 counterexample: the aborting TOOL step (registered tool, null input)
appends NO developer observation at all — the claim's "for every TOOL step"
fails on it. -/
theorem tool_observation_cx :
    malformedToolStep.step = "TOOL" ∧
    (handleStep ⟨[], []⟩ "r" malformedToolStep).kind = RKind.crash ∧
    ((handleStep ⟨[], []⟩ "r" malformedToolStep).state.messages.filter
        (fun m => m.role == "developer")).length = 0 :=
  ⟨by decide, by decide, by decide⟩

/-- C7 (amended): for every TOOL step whose dispatch completes (every TOOL
step except a registered tool name with null input), the iteration appends
exactly the assistant message followed immediately by the developer-role
observation serializing OBSERVE/tool/input/output, and then re-invokes the
model, so the next model call sees the tool result as the newest entry. -/
theorem tool_observation_append (st : AgentState) (raw : String) (p : MyOutputFormat)
    (out : String) (h1 : p.step = "TOOL")
    (h2 : toolDispatch p.tool p.input = some out) :
    handleStep st raw p = .next
      { messages := st.messages ++
          [⟨"assistant", raw⟩, ⟨"developer", obsJson p.tool p.input out⟩],
        chat_history := st.chat_history ++
          [("assistant", "🛠️ Fetching data using keyword: " ++ pyFmt p.input)] } := by
  simp [handleStep, h1, h2]

/-- C7 witness at an unregistered tool, whose dispatch completes with the
error string as the observation output. -/
theorem tool_observation_append_w :
    handleStep ⟨[], []⟩ "r" ⟨"TOOL", none, some "magic", some "x"⟩ = .next
      { messages := [⟨"assistant", "r"⟩,
          ⟨"developer", obsJson (some "magic") (some "x") "Error: Tool magic not found."⟩],
        chat_history := [("assistant", "🛠️ Fetching data using keyword: x")] } := by
  have h := tool_observation_append ⟨[], []⟩ "r" ⟨"TOOL", none, some "magic", some "x"⟩
    "Error: Tool magic not found." rfl (by decide)
  exact h.trans (by decide)

/-- C9: after the Clear Recommendations reset, whatever the prior session
state, the transcript is exactly the single system seed message and the
display log is empty. -/
theorem reset_session_state (st : AgentState) :
    (resetSession st).messages = [⟨"system", SYSTEM_PROMPT⟩] ∧
    (resetSession st).messages.length = 1 ∧
    (resetSession st).chat_history.length = 0 :=
  ⟨rfl, rfl, rfl⟩

/-- C10: a step whose kind is none of START/PLAN/TOOL/OUTPUT falls through
every branch: the iteration appends only the raw assistant message, adds no
display entry, invokes no tool, appends no observation, and re-invokes the
model (so it can never terminate the turn). -/
theorem unknown_step_falls_through (st : AgentState) (raw : String) (p : MyOutputFormat)
    (h : p.step ≠ "START" ∧ p.step ≠ "PLAN" ∧ p.step ≠ "TOOL" ∧ p.step ≠ "OUTPUT") :
    handleStep st raw p
      = .next { st with messages := st.messages ++ [⟨"assistant", raw⟩] } := by
  obtain ⟨h1, h2, h3, h4⟩ := h
  simp [handleStep, h1, h2, h3, h4]

/-- C10 witness at a model-emitted "OBSERVE" step. -/
theorem unknown_step_falls_through_w :
    handleStep ⟨[], []⟩ "raw" ⟨"OBSERVE", some "x", none, none⟩
      = .next ⟨[⟨"assistant", "raw"⟩], []⟩ := by
  have h := unknown_step_falls_through ⟨[], []⟩ "raw" ⟨"OBSERVE", some "x", none, none⟩
    ⟨by decide, by decide, by decide, by decide⟩
  exact h.trans (by decide)

end MovieAgent
